import Mathlib

/-!
Verification of `terrace_extractor.py` (terrace-extractor repository).

The pipeline is: read image → Canny edges → skeletonize → trace skeleton
contours into polylines → filter by length → write rasters and vectors.

Shallow embedding conventions:
* Pixel coordinates are `ℤ × ℤ` pairs `(col, row)` (the code applies `int(...)`
  to OpenCV contour points `p[0][0] = x = col`, `p[0][1] = y = row`).
* World coordinates and transform coefficients are `ℚ` (exact arithmetic; at
  every concrete input appearing below the Python float computation is exact
  as well).
* External collaborators (OpenCV `findContours`, shapely `LineString`,
  geopandas `set_crs` / `to_crs`, rasterio decoding, `cv2.imread`) are modelled
  as explicit oracle parameters; the logic of `terrace_extractor.py` itself is
  translated from the source.
-/

namespace TerraceExtractor

/-- A binary mask: a 2D grid of boolean pixels (row-major), as produced by
`(edges > 0).astype(np.uint8)` and `skeletonize(...)`. -/
abbrev Mask : Type := List (List Bool)

/-- A pixel-space contour as returned by `cv2.findContours` with
`CHAIN_APPROX_NONE`: an ordered list of `(col, row)` integer points. -/
abbrev Contour : Type := List (ℤ × ℤ)

/-- The affine pixel→world transform of a rasterio dataset: coefficients
`(a, b, c, d, e, f)` with `world_x = c + col*a + row*b`,
`world_y = f + col*d + row*e`. -/
structure Affine where
  a : ℚ
  b : ℚ
  c : ℚ
  d : ℚ
  e : ℚ
  f : ℚ
  deriving DecidableEq, Repr

/-- A coordinate reference system as the pipeline observes it: an EPSG-style
code and the `is_geographic` flag (angular vs linear units) that
`filter_by_length` consults. -/
structure CRS where
  code : ℤ
  is_geographic : Bool
  deriving DecidableEq, Repr

/-- A line geometry: the ordered list of world-space points of a shapely
`LineString`. -/
structure LineGeometry where
  points : List (ℚ × ℚ)
  deriving DecidableEq, Repr

/-- A `geopandas.GeoDataFrame` as the pipeline uses it: an ordered list of
line geometries plus an optional CRS. -/
structure GeoDataFrame where
  geometry : List LineGeometry
  crs : Option CRS
  deriving DecidableEq, Repr

/-- Pixel lookup in a mask (`False` outside the grid). -/
def maskAt (m : Mask) (row col : ℕ) : Bool :=
  ((m.get? row).bind fun r => r.get? col).getD false

/-- The georeferenced point mapping of `vectorize_skeleton`:
`(c + int(px)*a, f + int(py)*e)` — only the `a, c, e, f` coefficients of the
transform are used. -/
def geoMapPoint (t : Affine) (p : ℤ × ℤ) : ℚ × ℚ :=
  (t.c + (p.1 : ℚ) * t.a, t.f + (p.2 : ℚ) * t.e)

/-- The fallback point mapping of `vectorize_skeleton`:
`(x0 + int(px)*pixel_size, y0 - int(py)*pixel_size)`. -/
def fbMapPoint (origin : ℚ × ℚ) (pixel_size : ℚ) (p : ℤ × ℤ) : ℚ × ℚ :=
  (origin.1 + (p.1 : ℚ) * pixel_size, origin.2 - (p.2 : ℚ) * pixel_size)

/-- The contour loop shared by both branches of `vectorize_skeleton`:
skip contours with fewer than 2 points (`if len(cnt) < 2: continue`), map the
points to world space, and append `LineString(pts)` when construction
succeeds (`try/except: pass`). `mkLine` models the shapely `LineString`
constructor. -/
def traceLines (mkLine : List (ℚ × ℚ) → Option LineGeometry)
    (contours : List Contour) (f : ℤ × ℤ → ℚ × ℚ) : List LineGeometry :=
  contours.filterMap fun cnt =>
    if cnt.length < 2 then none else mkLine (cnt.map f)

/-- Modelled from shapely (external collaborator): `LineString(pts)` succeeds
iff at least 2 coordinate pairs are given, and stores exactly the given
points in order. -/
def shapelyMkLine (pts : List (ℚ × ℚ)) : Option LineGeometry :=
  if 2 ≤ pts.length then some ⟨pts⟩ else none

/-- `vectorize_skeleton(skel, pixel_size, transform, crs, epsg, origin_xy)`.
`findContours` models `cv2.findContours(skel_u8, RETR_LIST, CHAIN_APPROX_NONE)`
and `set_crs` models `gdf.set_crs(epsg)` (both external collaborators).
When both `transform` and `crs` are present the georeferenced mapping is used
and the result is tagged with `crs`; otherwise the fallback mapping is used
with the origin defaulting to `(0, 0)`, and the result is tagged by `epsg`
when one is supplied. -/
def vectorize_skeleton (mkLine : List (ℚ × ℚ) → Option LineGeometry)
    (set_crs : ℤ → CRS) (findContours : Mask → List Contour)
    (skel : Mask) (pixel_size : ℚ) (transform : Option Affine)
    (crs : Option CRS) (epsg : Option ℤ) (origin_xy : Option (ℚ × ℚ)) :
    GeoDataFrame :=
  let contours := findContours skel
  match transform, crs with
  | some t, some c =>
      { geometry := traceLines mkLine contours (geoMapPoint t), crs := some c }
  | some _, none =>
      { geometry :=
          traceLines mkLine contours (fbMapPoint (origin_xy.getD (0, 0)) pixel_size),
        crs := epsg.map set_crs }
  | none, _ =>
      { geometry :=
          traceLines mkLine contours (fbMapPoint (origin_xy.getD (0, 0)) pixel_size),
        crs := epsg.map set_crs }

/-- The Euclidean path length of a line geometry: the sum of the distances
between consecutive vertices (shapely's `length` of a LineString, in exact
real arithmetic). -/
noncomputable def pathLength (g : LineGeometry) : ℝ :=
  ((g.points.zip g.points.tail).map fun pq =>
    Real.sqrt (((pq.2.1 - pq.1.1 : ℚ) : ℝ) ^ 2 + ((pq.2.2 - pq.1.2 : ℚ) : ℝ) ^ 2)).sum

/-- The condition `gdf.crs is None or gdf.crs.is_geographic` of
`filter_by_length`: the collection's CRS offers no linear units. -/
def noLinearUnits : Option CRS → Bool
  | none => true
  | some c => c.is_geographic

section
open Classical

/-- `filter_by_length(gdf, min_length_m, project_epsg)`: optionally reproject
via `gdf.to_crs(project_epsg)` (`to_crs` models the external GIS reprojection),
return the collection as-is when its CRS is unset or geographic, and
otherwise keep only the geometries whose path length is ≥ `min_length_m`. -/
noncomputable def filter_by_length (to_crs : ℤ → GeoDataFrame → GeoDataFrame)
    (gdf : GeoDataFrame) (min_length_m : ℚ) (project_epsg : Option ℤ) :
    GeoDataFrame :=
  let gdf₂ :=
    match project_epsg with
    | some e => to_crs e gdf
    | none => gdf
  if noLinearUnits gdf₂.crs then gdf₂
  else
    { gdf₂ with
      geometry := gdf₂.geometry.filter fun g => decide ((min_length_m : ℝ) ≤ pathLength g) }

end

/-- The persisted raster of `save_binary`: a plain PNG written by
`cv2.imwrite(out_path.replace(".tif", ".png"), ...)`, or a georeferenced
GTiff written through rasterio. Pixel values are the uint8 values written. -/
inductive SavedRaster where
  | png (path : String) (pixels : List (List ℕ))
  | gtiff (path : String) (pixels : List (List ℕ)) (transform : Affine) (crs : CRS)
  deriving DecidableEq, Repr

/-- `save_binary(binary, out_path, transform, crs)`: when rasterio is
unavailable or the transform or the CRS is missing, write a PNG with pixel
values `binary.astype(np.uint8) * 255`; otherwise write a GTiff whose single
band holds `binary.astype(np.uint8)` verbatim (no scaling). -/
def save_binary (rasterioAvail : Bool) (binary : Mask) (out_path : String)
    (transform : Option Affine) (crs : Option CRS) : SavedRaster :=
  match rasterioAvail, transform, crs with
  | true, some t, some c =>
      .gtiff out_path (binary.map (List.map fun b => if b then 1 else 0)) t c
  | _, _, _ =>
      .png (out_path.replace ".tif" ".png")
        (binary.map (List.map fun b => if b then 255 else 0))

/-- A decoded color image (grid of BGR pixels). -/
abbrev Img : Type := List (List (ℕ × ℕ × ℕ))

/-- How `read_image` can fail: the rasterio open raising on a missing or
undecodable georeferenced file, or `cv2.imread` returning `None` (raised as
`FileNotFoundError`). The spec groups both as `ReadError`. -/
inductive ReadError where
  | rasterReadFailed
  | fileNotFound
  deriving DecidableEq, Repr

/-- `read_image(path)`: when rasterio is importable and the file extension is
`.tif`/`.tiff`, decode with rasterio (the `rasterRead` oracle stands for the
rasterio open together with the band/channel normalization, yielding the
image, transform and CRS) and fail if that decode fails; otherwise decode
with `cv2.imread` (the `cvRead` oracle) and fail if it yields nothing. No
second decode is ever attempted after a failure. -/
def read_image (rasterioAvail : Bool) (rasterRead : Option (Img × Affine × CRS))
    (cvRead : Option Img) (ext : String) :
    Except ReadError (Img × Option (Affine × CRS)) :=
  if rasterioAvail = true ∧ (ext = ".tif" ∨ ext = ".tiff") then
    match rasterRead with
    | some (img, t, c) => .ok (img, some (t, c))
    | none => .error .rasterReadFailed
  else
    match cvRead with
    | some img => .ok (img, none)
    | none => .error .fileNotFound

/-- Whether ingestion failed. -/
def readFailed {α : Type} : Except ReadError α → Bool
  | .error _ => true
  | .ok _ => false

/-- A file-system event of the pipeline, in program order. -/
inductive Event where
  | writeRaster (name : String)
  | mkdirOut
  | writeVector (name : String)
  deriving DecidableEq, Repr

/-- Whether an event writes a file into the output directory. -/
def isFileWrite : Event → Bool
  | .writeRaster _ => true
  | .mkdirOut => false
  | .writeVector _ => true

/-- The file-system events of `write_vectors(gdf, out_dir, as_gpkg)`:
`out_dir.mkdir(parents=True, exist_ok=True)`, then the vector file write
(`terrace_lines.gpkg` in GPKG mode, else `terrace_lines.shp`). -/
def write_vectorsEvents (as_gpkg : Bool) : List Event :=
  [Event.mkdirOut,
   Event.writeVector (if as_gpkg then "terrace_lines.gpkg" else "terrace_lines.shp")]

/-- The output-directory events of `main`, in program order: `save_binary`
for the edge mask, `save_binary` for the skeleton mask, then
`write_vectors`. -/
def mainEvents (as_gpkg : Bool) : List Event :=
  [Event.writeRaster "terrace_edges.tif", Event.writeRaster "terrace_skeleton.tif"]
    ++ write_vectorsEvents as_gpkg

/-- Whether a trace creates the output directory before any file write: no
file write occurs strictly before the first `mkdirOut`. -/
def mkdirBeforeWrites (tr : List Event) : Bool :=
  !(tr.takeWhile fun e => decide (e ≠ Event.mkdirOut)).any isFileWrite

/-- The diagonal contour of pixels `(0,0), (1,1), …, (n,n)`. -/
def diagContour (n : ℕ) : Contour :=
  (List.range (n + 1)).map fun i : ℕ => ((i : ℤ), (i : ℤ))

/-- Helper: any geometry produced by the contour loop is the image of one of
the traced contours (of length ≥ 2) under the point mapping, provided the
`LineString` constructor stores the points it is given. -/
theorem mem_traceLines {mkLine : List (ℚ × ℚ) → Option LineGeometry}
    (hmk : ∀ pts l, mkLine pts = some l → l.points = pts)
    {contours : List Contour} {f : ℤ × ℤ → ℚ × ℚ} {g : LineGeometry}
    (hg : g ∈ traceLines mkLine contours f) :
    ∃ cnt ∈ contours, 2 ≤ cnt.length ∧ g.points = cnt.map f := by
  rcases List.mem_filterMap.mp hg with ⟨cnt, hcnt, hsome⟩
  by_cases hlen : cnt.length < 2
  · simp [hlen] at hsome
  · refine ⟨cnt, hcnt, Nat.le_of_not_lt hlen, ?_⟩
    rw [if_neg hlen] at hsome
    simpa [List.length_map] using hmk _ _ hsome

theorem shapelyMkLine_points (pts : List (ℚ × ℚ)) (l : LineGeometry)
    (h : shapelyMkLine pts = some l) : l.points = pts := by
  unfold shapelyMkLine at h
  by_cases h2 : 2 ≤ pts.length
  · rw [if_pos h2] at h
    cases h
    rfl
  · rw [if_neg h2] at h
    cases h

/-- Claim C10: when a GeoContext (transform and CRS) is present, the
vectorizer's output does not depend on the fallback inputs: two runs on the
same contours and GeoContext that differ only in `pixel_size`, fallback
`origin_xy` or fallback `epsg` return identical GeoDataFrames. -/
theorem vectorize_geo_independent_of_fallback
    (mkLine : List (ℚ × ℚ) → Option LineGeometry) (set_crs : ℤ → CRS)
    (findContours : Mask → List Contour) (skel : Mask) (t : Affine) (c : CRS)
    (ps₁ ps₂ : ℚ) (e₁ e₂ : Option ℤ) (o₁ o₂ : Option (ℚ × ℚ)) :
    vectorize_skeleton mkLine set_crs findContours skel ps₁ (some t) (some c) e₁ o₁ =
      vectorize_skeleton mkLine set_crs findContours skel ps₂ (some t) (some c) e₂ o₂ := rfl

/-- Claim C1: on the georeferenced path every traced pixel `(col, row)` is
mapped to world coordinates `(c + col*a, f + row*e)`; the rotation
coefficients `b, d` of the transform are ignored; in particular, with
`a = 0.3, e = -0.3, c = 500000, f = 4000000`, pixel `(10, 20)` maps to
exactly `(500003, 3999994)`. -/
theorem geo_path_mapping (set_crs : ℤ → CRS) (findContours : Mask → List Contour)
    (skel : Mask) (ps : ℚ) (ep : Option ℤ) (o : Option (ℚ × ℚ)) (t : Affine) (c : CRS) :
    (∀ g ∈ (vectorize_skeleton shapelyMkLine set_crs findContours skel ps
              (some t) (some c) ep o).geometry,
        ∃ cnt ∈ findContours skel, g.points = cnt.map (geoMapPoint t)) ∧
    (∀ p : ℤ × ℤ, geoMapPoint t p = (t.c + (p.1 : ℚ) * t.a, t.f + (p.2 : ℚ) * t.e)) ∧
    (∀ t₂ : Affine, t.a = t₂.a → t.c = t₂.c → t.e = t₂.e → t.f = t₂.f →
        ∀ p : ℤ × ℤ, geoMapPoint t p = geoMapPoint t₂ p) ∧
    (∀ b d : ℚ, geoMapPoint ⟨0.3, b, 500000, d, -0.3, 4000000⟩ (10, 20) =
        (500003, 3999994)) := by
  refine ⟨?_, fun p => rfl, ?_, ?_⟩
  · intro g hg
    rcases mem_traceLines shapelyMkLine_points hg with ⟨cnt, hcnt, _, hpts⟩
    exact ⟨cnt, hcnt, hpts⟩
  · intro t₂ ha hc he hf p
    simp [geoMapPoint, ha, hc, he, hf]
  · intro b d
    simp only [geoMapPoint]
    norm_num

/-- Witness for C1 at the concrete transform of the spec (with two distinct
rotation-term choices, discharging the coefficient-equality hypotheses). -/
theorem geo_path_mapping_witness :
    geoMapPoint ⟨0.3, 0, 500000, 0, -0.3, 4000000⟩ (10, 20) = (500003, 3999994) ∧
    geoMapPoint ⟨0.3, 7, 500000, 9, -0.3, 4000000⟩ (10, 20) =
      geoMapPoint ⟨0.3, 0, 500000, 0, -0.3, 4000000⟩ (10, 20) :=
  ⟨(geo_path_mapping (fun _ => ⟨0, false⟩) (fun _ => []) [] 1 none none
      ⟨0.3, 0, 500000, 0, -0.3, 4000000⟩ ⟨32633, false⟩).2.2.2 0 0,
   (geo_path_mapping (fun _ => ⟨0, false⟩) (fun _ => []) [] 1 none none
      ⟨0.3, 7, 500000, 9, -0.3, 4000000⟩ ⟨32633, false⟩).2.2.1
      ⟨0.3, 0, 500000, 0, -0.3, 4000000⟩ rfl rfl rfl rfl (10, 20)⟩

/-- Claim C2: on the fallback path every traced pixel `(col, row)` is mapped
to `(origin_x + col*pixel_size, origin_y - row*pixel_size)` (row axis
sign-flipped), with the origin defaulting to `(0, 0)` when none is supplied;
a diagonal trace `(0,0) … (n,n)` with `pixel_size = 1` and the default origin
yields the single line geometry with points `(0,0), (1,-1), …, (n,-n)`. -/
theorem fallback_path_mapping (set_crs : ℤ → CRS) (findContours : Mask → List Contour)
    (skel : Mask) (ps : ℚ) (ep : Option ℤ) (o : Option (ℚ × ℚ)) :
    (∀ g ∈ (vectorize_skeleton shapelyMkLine set_crs findContours skel ps
              none none ep o).geometry,
        ∃ cnt ∈ findContours skel, g.points = cnt.map (fbMapPoint (o.getD (0, 0)) ps)) ∧
    (∀ origin : ℚ × ℚ, ∀ p : ℤ × ℤ, fbMapPoint origin ps p =
        (origin.1 + (p.1 : ℚ) * ps, origin.2 - (p.2 : ℚ) * ps)) ∧
    (∀ n : ℕ, 1 ≤ n → findContours skel = [diagContour n] →
      (vectorize_skeleton shapelyMkLine set_crs findContours skel 1
          none none none none).geometry =
        [⟨(List.range (n + 1)).map fun i : ℕ => ((i : ℚ), -(i : ℚ))⟩]) := by
  refine ⟨?_, fun origin p => rfl, ?_⟩
  · intro g hg
    rcases mem_traceLines shapelyMkLine_points hg with ⟨cnt, hcnt, _, hpts⟩
    exact ⟨cnt, hcnt, hpts⟩
  · intro n hn hfc
    have hmap : (diagContour n).map (fbMapPoint (0, 0) 1)
        = (List.range (n + 1)).map fun i : ℕ => ((i : ℚ), -(i : ℚ)) := by
      rw [diagContour, List.map_map]
      refine List.map_congr_left fun i _ => ?_
      simp only [Function.comp_apply, fbMapPoint, Prod.mk.injEq]
      constructor
      · push_cast
        ring
      · push_cast
        ring
    have h2 : ¬ ((diagContour n).length < 2) := by
      simp only [diagContour, List.length_map, List.length_range]
      omega
    have h3 : 2 ≤ ((List.range (n + 1)).map fun i : ℕ => ((i : ℚ), -(i : ℚ))).length := by
      simp only [List.length_map, List.length_range]
      omega
    have hsome : shapelyMkLine ((diagContour n).map (fbMapPoint (0, 0) 1))
        = some ⟨(List.range (n + 1)).map fun i : ℕ => ((i : ℚ), -(i : ℚ))⟩ := by
      rw [hmap]
      simp only [shapelyMkLine]
      rw [if_pos h3]
    simp only [vectorize_skeleton, hfc, Option.getD, traceLines,
      List.filterMap_cons, List.filterMap_nil, if_neg h2, hsome]

/-- Witness for C2: the diagonal trace `(0,0) … (3,3)` with `pixel_size = 1`
and default origin yields the line `(0,0), (1,-1), (2,-2), (3,-3)`. -/
theorem fallback_path_mapping_witness :
    (vectorize_skeleton shapelyMkLine (fun _ => ⟨0, false⟩)
        (fun _ => [diagContour 3]) [] 1 none none none none).geometry =
      [⟨[((0 : ℚ), (0 : ℚ)), (1, -1), (2, -2), (3, -3)]⟩] := by
  have h := (fallback_path_mapping (fun _ => ⟨0, false⟩) (fun _ => [diagContour 3])
      [] 1 none none).2.2 3 (by norm_num) rfl
  rw [h]
  norm_num [List.range_succ]

/-- Claim C8: every geometry returned by the vectorizer has at least 2
points, on either mapping branch: contours with fewer than 2 vertices are
skipped, and contours whose LineString construction fails are silently
dropped rather than inserted as placeholders (assuming only that a
successful LineString construction stores the points it was given). -/
theorem vectorize_geoms_at_least_two
    (mkLine : List (ℚ × ℚ) → Option LineGeometry)
    (hmk : ∀ pts l, mkLine pts = some l → l.points = pts)
    (set_crs : ℤ → CRS) (findContours : Mask → List Contour) (skel : Mask)
    (ps : ℚ) (transform : Option Affine) (crs : Option CRS) (ep : Option ℤ)
    (o : Option (ℚ × ℚ)) :
    ∀ g ∈ (vectorize_skeleton mkLine set_crs findContours skel ps
            transform crs ep o).geometry, 2 ≤ g.points.length := by
  intro g hg
  cases transform with
  | some t =>
      cases crs with
      | some c =>
          rcases mem_traceLines hmk hg with ⟨cnt, _, hlen, hpts⟩
          rw [hpts, List.length_map]
          exact hlen
      | none =>
          rcases mem_traceLines hmk hg with ⟨cnt, _, hlen, hpts⟩
          rw [hpts, List.length_map]
          exact hlen
  | none =>
      rcases mem_traceLines hmk hg with ⟨cnt, _, hlen, hpts⟩
      rw [hpts, List.length_map]
      exact hlen

/-- Witness for C8: the concrete two-pixel contour `(0,0), (1,0)` produces a
geometry with at least 2 points. -/
theorem vectorize_geoms_at_least_two_witness :
    2 ≤ (LineGeometry.mk [((0 : ℚ), (0 : ℚ)), (1, 0)]).points.length :=
  vectorize_geoms_at_least_two shapelyMkLine shapelyMkLine_points
    (fun _ => ⟨0, false⟩) (fun _ => [[(0, 0), (1, 0)]]) [] 1 none none none none
    ⟨[(0, 0), (1, 0)]⟩ (by
      have h : (vectorize_skeleton shapelyMkLine (fun _ => ⟨0, false⟩)
          (fun _ => [[(0, 0), (1, 0)]]) [] 1 none none none none).geometry
          = [⟨[(0, 0), (1, 0)]⟩] := by
        simp only [vectorize_skeleton, traceLines, List.filterMap_cons,
          List.filterMap_nil]
        norm_num [shapelyMkLine, fbMapPoint]
      rw [h]
      exact List.mem_singleton.mpr rfl)

/-- Claim C9: a skeleton mask with zero foreground pixels vectorizes to an
empty GeometryCollection on both mapping branches — given that every point
of every traced contour is a foreground pixel of the mask (the contract of
`cv2.findContours`, which follows foreground boundaries). -/
theorem vectorize_empty_mask
    (mkLine : List (ℚ × ℚ) → Option LineGeometry) (set_crs : ℤ → CRS)
    (findContours : Mask → List Contour) (skel : Mask) (ps : ℚ)
    (transform : Option Affine) (crs : Option CRS) (ep : Option ℤ)
    (o : Option (ℚ × ℚ))
    (hfg : ∀ cnt ∈ findContours skel, ∀ p ∈ cnt,
        0 ≤ p.1 ∧ 0 ≤ p.2 ∧ maskAt skel p.2.toNat p.1.toNat = true)
    (hempty : ∀ r c, maskAt skel r c = false) :
    (vectorize_skeleton mkLine set_crs findContours skel ps
        transform crs ep o).geometry = [] := by
  have hnil : ∀ cnt ∈ findContours skel, cnt = [] := by
    intro cnt hcnt
    refine List.eq_nil_iff_forall_not_mem.mpr fun p hp => ?_
    have h := (hfg cnt hcnt p hp).2.2
    rw [hempty] at h
    cases h
  have htrace : ∀ f, traceLines mkLine (findContours skel) f = [] := by
    intro f
    refine List.filterMap_eq_nil_iff.mpr fun cnt hcnt => ?_
    rw [hnil cnt hcnt]
    rfl
  cases transform with
  | some t =>
      cases crs with
      | some c => simp only [vectorize_skeleton, htrace]
      | none => simp only [vectorize_skeleton, htrace]
  | none => simp only [vectorize_skeleton, htrace]

/-- Witness for C9 at the empty mask with no traced contours. -/
theorem vectorize_empty_mask_witness :
    (vectorize_skeleton shapelyMkLine (fun _ => ⟨0, false⟩) (fun _ => [])
        [] 1 none none none none).geometry = [] :=
  vectorize_empty_mask shapelyMkLine (fun _ => ⟨0, false⟩) (fun _ => [])
    [] 1 none none none none
    (fun cnt hcnt => absurd hcnt (List.not_mem_nil cnt))
    (fun _ _ => rfl)

/-- Counterexample to C3 as stated: with georeference present, a foreground
pixel is persisted in the GTiff band as 1, not 255. -/
theorem save_binary_gtiff_not_255 :
    save_binary true [[true]] "m.tif" (some ⟨0.3, 0, 500000, 0, -0.3, 4000000⟩)
        (some ⟨32633, false⟩) =
      SavedRaster.gtiff "m.tif" [[1]] ⟨0.3, 0, 500000, 0, -0.3, 4000000⟩
        ⟨32633, false⟩ ∧ (1 : ℕ) ≠ 255 :=
  ⟨rfl, by norm_num⟩

/-- Amended C3: the plain-image output encodes foreground as 255 and
background as 0, while the georeferenced GTiff output persists the mask
verbatim — foreground as 1, background as 0. -/
theorem save_binary_encoding (binary : Mask) (out_path : String)
    (t : Affine) (c : CRS) :
    save_binary true binary out_path (some t) (some c) =
      SavedRaster.gtiff out_path
        (binary.map (List.map fun b => if b then 1 else 0)) t c ∧
    (∀ ra : Bool, ∀ ot : Option Affine, ∀ oc : Option CRS,
      ra = false ∨ ot = none ∨ oc = none →
      save_binary ra binary out_path ot oc =
        SavedRaster.png (out_path.replace ".tif" ".png")
          (binary.map (List.map fun b => if b then 255 else 0))) := by
  refine ⟨rfl, ?_⟩
  intro ra ot oc h
  rcases h with h | h | h
  · subst h
    cases ot <;> cases oc <;> rfl
  · subst h
    cases ra <;> cases oc <;> rfl
  · subst h
    cases ra <;> cases ot <;> rfl

/-- Witness for the amended C3: a single foreground pixel without
georeference is written to PNG as 255. -/
theorem save_binary_encoding_witness :
    save_binary false [[true]] "m.tif" none none =
      SavedRaster.png ("m.tif".replace ".tif" ".png") [[255]] :=
  (save_binary_encoding [[true]] "m.tif" ⟨0.3, 0, 500000, 0, -0.3, 4000000⟩
    ⟨32633, false⟩).2 false none none (Or.inl rfl)

/-- Claim C4 fails on the code: in `main`'s event order both raster writes
precede the only `mkdirOut`, which happens inside `write_vectors`; the
directory is created (idempotently) only before the vector-file write. -/
theorem mkdir_after_raster_writes :
    (∀ g : Bool, mkdirBeforeWrites (mainEvents g) = false) ∧
    (∀ g : Bool, (mainEvents g).takeWhile (fun e => decide (e ≠ Event.mkdirOut)) =
      [Event.writeRaster "terrace_edges.tif",
       Event.writeRaster "terrace_skeleton.tif"]) ∧
    (∀ g : Bool, (write_vectorsEvents g).head? = some Event.mkdirOut) := by
  refine ⟨?_, ?_, ?_⟩ <;> intro g <;> cases g <;> rfl

/-- Claim C5: when the CRS of the collection after the optional reprojection
step is unset or geographic (angular units), `filter_by_length` returns that
collection completely unchanged, whatever `min_length` is; in particular with
no reprojection requested it is the identity on its input. -/
theorem filter_noop_geographic (to_crs : ℤ → GeoDataFrame → GeoDataFrame)
    (gdf : GeoDataFrame) (m : ℚ) (pe : Option ℤ)
    (h : noLinearUnits (match pe with
        | some e => to_crs e gdf
        | none => gdf).crs = true) :
    filter_by_length to_crs gdf m pe =
      (match pe with | some e => to_crs e gdf | none => gdf) := by
  cases pe with
  | none =>
      simp only at h
      simp only [filter_by_length, h, if_true]
  | some e =>
      simp only at h
      simp only [filter_by_length, h, if_true]

/-- Witness for C5: a collection tagged with a geographic CRS passes through
the filter unchanged. -/
theorem filter_noop_geographic_witness :
    filter_by_length (fun _ g => g)
        ⟨[⟨[(0, 0), (1, 1)]⟩], some ⟨4326, true⟩⟩ 5 none =
      ⟨[⟨[(0, 0), (1, 1)]⟩], some ⟨4326, true⟩⟩ :=
  filter_noop_geographic (fun _ g => g)
    ⟨[⟨[(0, 0), (1, 1)]⟩], some ⟨4326, true⟩⟩ 5 none rfl

/-- Claim C6: with a projected (linear-unit) CRS after the optional
reprojection step, `filter_by_length` keeps exactly the geometries whose
path length is ≥ `min_length` (each unchanged), its output is a sublist of
the input geometries (point order and geometry order preserved), and the CRS
tag is kept. -/
theorem filter_projected (to_crs : ℤ → GeoDataFrame → GeoDataFrame)
    (gdf : GeoDataFrame) (m : ℚ) (pe : Option ℤ) (c : CRS)
    (hc : (match pe with | some e => to_crs e gdf | none => gdf).crs = some c)
    (hgeo : c.is_geographic = false) :
    (∀ g : LineGeometry,
      g ∈ (filter_by_length to_crs gdf m pe).geometry ↔
        g ∈ (match pe with | some e => to_crs e gdf | none => gdf).geometry ∧
          (m : ℝ) ≤ pathLength g) ∧
    (filter_by_length to_crs gdf m pe).geometry.Sublist
      (match pe with | some e => to_crs e gdf | none => gdf).geometry ∧
    (filter_by_length to_crs gdf m pe).crs =
      (match pe with | some e => to_crs e gdf | none => gdf).crs := by
  cases pe with
  | none =>
      simp only at hc
      have hnl : noLinearUnits gdf.crs = false := by
        rw [hc]
        exact hgeo
      refine ⟨?_, ?_, ?_⟩
      · intro g
        simp only [filter_by_length, hnl, Bool.false_eq_true, if_false,
          List.mem_filter, decide_eq_true_eq]
      · simp only [filter_by_length, hnl, Bool.false_eq_true, if_false]
        exact List.filter_sublist _
      · simp only [filter_by_length, hnl, Bool.false_eq_true, if_false]
  | some e =>
      simp only at hc
      have hnl : noLinearUnits (to_crs e gdf).crs = false := by
        rw [hc]
        exact hgeo
      refine ⟨?_, ?_, ?_⟩
      · intro g
        simp only [filter_by_length, hnl, Bool.false_eq_true, if_false,
          List.mem_filter, decide_eq_true_eq]
      · simp only [filter_by_length, hnl, Bool.false_eq_true, if_false]
        exact List.filter_sublist _
      · simp only [filter_by_length, hnl, Bool.false_eq_true, if_false]

/-- Witness for C6: with a projected CRS and `min_length = 5`, a geometry of
path length 10 is retained. -/
theorem filter_projected_witness :
    (⟨[((0 : ℚ), (0 : ℚ)), (0, 10)]⟩ : LineGeometry) ∈
      (filter_by_length (fun _ g => g)
        ⟨[⟨[(0, 0), (3, 0)]⟩, ⟨[(0, 0), (0, 10)]⟩], some ⟨32633, false⟩⟩
        5 none).geometry := by
  have h := (filter_projected (fun _ g => g)
      ⟨[⟨[(0, 0), (3, 0)]⟩, ⟨[(0, 0), (0, 10)]⟩], some ⟨32633, false⟩⟩
      5 none ⟨32633, false⟩ rfl rfl).1 ⟨[(0, 0), (0, 10)]⟩
  refine h.mpr ⟨by simp, ?_⟩
  have hlen : pathLength ⟨[((0 : ℚ), (0 : ℚ)), (0, 10)]⟩ = 10 := by
    simp only [pathLength, List.zip, List.tail, List.zipWith, List.map,
      List.sum_cons, List.sum_nil, add_zero]
    rw [show (((0 : ℚ) - 0 : ℚ) : ℝ) ^ 2 + (((10 : ℚ) - 0 : ℚ) : ℝ) ^ 2
        = 10 ^ 2 by push_cast; norm_num]
    exact Real.sqrt_sq (by norm_num)
  rw [hlen]
  norm_num

/-- Claim C7: ingestion fails exactly when the ingestion path selected for
the input (rasterio for `.tif`/`.tiff` with rasterio importable, `cv2`
otherwise) cannot decode it, and on the georeferenced route the outcome
never consults the plain-image reader — no fallback probing after a
failure. -/
theorem read_image_error_iff (ra : Bool) (rr : Option (Img × Affine × CRS))
    (cv : Option Img) (ext : String) :
    (readFailed (read_image ra rr cv ext) = true ↔
      ((ra = true ∧ (ext = ".tif" ∨ ext = ".tiff")) ∧ rr = none) ∨
        (¬(ra = true ∧ (ext = ".tif" ∨ ext = ".tiff")) ∧ cv = none)) ∧
    ((ra = true ∧ (ext = ".tif" ∨ ext = ".tiff")) →
      ∀ cv₂ : Option Img, read_image ra rr cv ext = read_image ra rr cv₂ ext) := by
  constructor
  · by_cases hcond : ra = true ∧ (ext = ".tif" ∨ ext = ".tiff")
    · cases rr with
      | some r =>
          simp [read_image, hcond, readFailed]
      | none =>
          simp [read_image, hcond, readFailed]
    · cases cv with
      | some i =>
          simp [read_image, hcond, readFailed]
      | none =>
          simp [read_image, hcond, readFailed]
  · intro hcond cv₂
    simp [read_image, hcond]

/-- Witness for C7: with rasterio available and a `.tif` input whose
georeferenced decode fails, the result does not depend on the plain-image
reader. -/
theorem read_image_error_iff_witness :
    read_image true none (some []) ".tif" = read_image true none none ".tif" :=
  (read_image_error_iff true none (some []) ".tif").2 ⟨rfl, Or.inl rfl⟩ none

end TerraceExtractor
